import Mathlib

/-!
Verification development for the Hacker News MCP server (src/server.py).
The four logical operations (top stories, new stories, single story, search)
are embedded shallowly: upstream HTTP behaviour is an explicit record of
functions, Python dict/list/JSON values become an inductive `Json` type, and
each operation returns the JSON document it would serialize together with the
ordered list of upstream HTTP requests it issued (each request records the
timeout passed to httpx.get, with 10.0 modelled as 10 and 5.0 as 5).
An exception raised by an upstream call is an `Except.error`; the two Python
handlers (httpx.RequestError, then Exception) are the two `UpstreamErr`
constructors. A falsy item body (JSON null or empty object, Python
`if not story`) is modelled as `none`.
-/

/-- JSON values as produced by the server before json.dumps serialization.
Object fields keep insertion order, as Python dicts do. -/
inductive Json where
  | null : Json
  | str (s : String) : Json
  | int (n : Int) : Json
  | arr (xs : List Json) : Json
  | obj (fields : List (String × Json)) : Json
deriving Repr

/-- Field lookup in a JSON object (first match, like a Python dict key). -/
def Json.lookup (k : String) : Json → Option Json
  | .obj fields => List.lookup k fields
  | _ => none

/-- The keys of a JSON object, in insertion order. -/
def Json.keys : Json → List String
  | .obj fields => fields.map Prod.fst
  | _ => []

/-- An exception escaping an upstream call: httpx.RequestError (transport
failure) is caught by the first handler, anything else (for example the
HTTPStatusError from raise_for_status, or a JSON decode failure) by the
second, generic handler. -/
inductive UpstreamErr where
  | requestError (msg : String) : UpstreamErr
  | otherError (msg : String) : UpstreamErr
deriving Repr, DecidableEq

/-- The error string built by the except handlers at the operation boundary. -/
def UpstreamErr.message : UpstreamErr → String
  | .requestError m => "Request failed: " ++ m
  | .otherError m => "Unexpected error: " ++ m

/-- The structured error payload json.dumps serializes on failure. -/
def errJson (e : UpstreamErr) : Json := Json.obj [("error", Json.str e.message)]

/-- A raw item record from the items API, item/{id}.json. Every field the
server reads is optional: `none` models an absent key (dict.get default). -/
structure RawItem where
  id : Option Int := none
  type : Option String := none
  title : Option String := none
  url : Option String := none
  score : Option Int := none
  by_ : Option String := none
  descendants : Option Int := none
  time : Option Int := none
  text : Option String := none
  kids : Option (List Int) := none
deriving Repr, DecidableEq

/-- A raw hit record from the Algolia search API hits array. -/
structure RawHit where
  objectID : Option String := none
  title : Option String := none
  url : Option String := none
  points : Option Int := none
  author : Option String := none
  num_comments : Option Int := none
  created_at_i : Option Int := none
  created_at : Option String := none
deriving Repr, DecidableEq

/-- The parsed body of a search response; data.get with key hits and
default empty list reads the `hits` field. -/
structure SearchData where
  hits : Option (List RawHit) := none
deriving Repr

/-- One upstream HTTP request as issued by httpx.get: which endpoint,
its parameters, and the timeout passed. -/
inductive Request where
  | listing (endpoint : String) (timeout : Int) : Request
  | item (id : Int) (timeout : Int) : Request
  | search (query : String) (tags : String) (hitsPerPage : Int) (timeout : Int) : Request
deriving Repr, DecidableEq

/-- Upstream behaviour: what each HTTP call returns (or which exception it
raises), possibly depending on the timeout it was issued with. -/
structure Upstream where
  listing : String → Int → Except UpstreamErr (List Int)
  item : Int → Int → Except UpstreamErr (Option RawItem)
  search : String → String → Int → Int → Except UpstreamErr SearchData

/-- limit = min(max(limit, 1), 30), the clamp used by the top/new listings. -/
def clampListing (limit : Int) : Int := min (max limit 1) 30

/-- limit = min(max(limit, 1), 20), the clamp used by search_stories. -/
def clampSearch (limit : Int) : Int := min (max limit 1) 20

/-- story_ids = response.json()[:limit] with the clamped limit: the ids the
listing operations take from the listing before fetching items. -/
def takeIds (ids : List Int) (limit : Int) : List Int :=
  ids.take (clampListing limit).toNat

/-- time_iso for listing variants: story.get of key time, and str of it,
or None. Python truthiness makes both an absent time and a zero time give
None; any other integer gives its decimal string. -/
def timeIso : Option Int → Json
  | some t => if t = 0 then Json.null else Json.str (toString t)
  | none => Json.null

/-- The canonical discussion link synthesized when an item has no url. -/
def hnItemUrl (id : Int) : String :=
  "https://news.ycombinator.com/item?id=" ++ toString id

/-- The canonical discussion link for a search hit, built from the rendered
objectID string. -/
def hnItemUrlOfStr (id : String) : String :=
  "https://news.ycombinator.com/item?id=" ++ id

/-- Python str-formatting of an optional string: an absent objectID renders
as the string None inside the f-string. -/
def pyOptStr : Option String → String
  | some s => s
  | none => "None"

/-- An optional string as a JSON value (absent key gives null). -/
def optStrJson : Option String → Json
  | some s => Json.str s
  | none => Json.null

/-- An optional int as a JSON value (absent key gives null). -/
def optIntJson : Option Int → Json
  | some n => Json.int n
  | none => Json.null

/-- The dict appended for one story by get_top_stories; story_id is the id
taken from the listing (used for the synthesized url). -/
def mkStoryTop (story : RawItem) (story_id : Int) : Json :=
  Json.obj
    [ ("id", optIntJson story.id)
    , ("title", Json.str (story.title.getD ""))
    , ("url", Json.str (story.url.getD (hnItemUrl story_id)))
    , ("score", Json.int (story.score.getD 0))
    , ("author", Json.str (story.by_.getD ""))
    , ("comments", Json.int (story.descendants.getD 0))
    , ("time", Json.int (story.time.getD 0))
    , ("time_iso", timeIso story.time) ]

/-- The dict appended for one story by get_new_stories: same as the top
variant but without the comments field. -/
def mkStoryNew (story : RawItem) (story_id : Int) : Json :=
  Json.obj
    [ ("id", optIntJson story.id)
    , ("title", Json.str (story.title.getD ""))
    , ("url", Json.str (story.url.getD (hnItemUrl story_id)))
    , ("score", Json.int (story.score.getD 0))
    , ("author", Json.str (story.by_.getD ""))
    , ("time", Json.int (story.time.getD 0))
    , ("time_iso", timeIso story.time) ]

/-- The formatted_story dict built by get_story: includes text and kids,
has no time_iso field. -/
def mkStorySingle (story : RawItem) (story_id : Int) : Json :=
  Json.obj
    [ ("id", optIntJson story.id)
    , ("title", Json.str (story.title.getD ""))
    , ("url", Json.str (story.url.getD (hnItemUrl story_id)))
    , ("score", Json.int (story.score.getD 0))
    , ("author", Json.str (story.by_.getD ""))
    , ("comments", Json.int (story.descendants.getD 0))
    , ("time", Json.int (story.time.getD 0))
    , ("text", Json.str (story.text.getD ""))
    , ("kids", Json.arr ((story.kids.getD []).map Json.int)) ]

/-- The dict appended for one search hit by search_stories. -/
def mkHit (hit : RawHit) : Json :=
  Json.obj
    [ ("id", optStrJson hit.objectID)
    , ("title", Json.str (hit.title.getD ""))
    , ("url", Json.str (hit.url.getD (hnItemUrlOfStr (pyOptStr hit.objectID))))
    , ("score", Json.int (hit.points.getD 0))
    , ("author", Json.str (hit.author.getD ""))
    , ("comments", Json.int (hit.num_comments.getD 0))
    , ("time", Json.int (hit.created_at_i.getD 0))
    , ("time_iso", Json.str (hit.created_at.getD "")) ]

/-- The per-id fetch loop of the listing operations: fetch each item with
timeout 5, raise_for_status, keep items whose type field is story, preserve
id order; the first exception aborts the loop (fail fast) and the partial
stories list is discarded. The second component is the ordered request log. -/
def fetchLoop (u : Upstream) (mk : RawItem → Int → Json) :
    List Int → Except UpstreamErr (List Json) × List Request
  | [] => (Except.ok [], [])
  | story_id :: rest =>
    match u.item story_id 5 with
    | Except.error e => (Except.error e, [Request.item story_id 5])
    | Except.ok story =>
      let tail := fetchLoop u mk rest
      let here : List Json :=
        match story with
        | some s => if s.type = some "story" then [mk s story_id] else []
        | none => []
      (tail.1.map (fun stories => here ++ stories), Request.item story_id 5 :: tail.2)

/-- get_top_stories_http: clamp limit to [1,30], fetch topstories.json with
timeout 10, take the first limit ids, fetch and shape each item with the
top variant, serialize the array; any exception becomes the error payload. -/
def get_top_stories_http (u : Upstream) (limit : Int) : Json × List Request :=
  let req := Request.listing "topstories" 10
  match u.listing "topstories" 10 with
  | Except.error e => (errJson e, [req])
  | Except.ok ids =>
    match fetchLoop u mkStoryTop (takeIds ids limit) with
    | (Except.ok stories, log) => (Json.arr stories, req :: log)
    | (Except.error e, log) => (errJson e, req :: log)

/-- get_new_stories_http: same pipeline as get_top_stories_http but on
newstories.json and shaping without the comments field. -/
def get_new_stories_http (u : Upstream) (limit : Int) : Json × List Request :=
  let req := Request.listing "newstories" 10
  match u.listing "newstories" 10 with
  | Except.error e => (errJson e, [req])
  | Except.ok ids =>
    match fetchLoop u mkStoryNew (takeIds ids limit) with
    | (Except.ok stories, log) => (Json.arr stories, req :: log)
    | (Except.error e, log) => (errJson e, req :: log)

/-- get_story_http: fetch item/{story_id}.json with timeout 10; a falsy body
gives the not-found error, a non-story type gives the type error, otherwise
the single-story record is serialized. -/
def get_story_http (u : Upstream) (story_id : Int) : Json × List Request :=
  let req := Request.item story_id 10
  match u.item story_id 10 with
  | Except.error e => (errJson e, [req])
  | Except.ok none =>
    (Json.obj [("error", Json.str ("Story " ++ toString story_id ++ " not found"))], [req])
  | Except.ok (some story) =>
    if story.type = some "story" then (mkStorySingle story story_id, [req])
    else (Json.obj [("error", Json.str ("Item " ++ toString story_id ++ " is not a story"))], [req])

/-- search_stories_http: clamp limit to [1,20], issue one search request with
tags story and hitsPerPage equal to the clamped limit and timeout 10, shape
every hit in order; any exception becomes the error payload. -/
def search_stories_http (u : Upstream) (query : String) (limit : Int) : Json × List Request :=
  let lim := clampSearch limit
  let req := Request.search query "story" lim 10
  match u.search query "story" lim 10 with
  | Except.error e => (errJson e, [req])
  | Except.ok data => (Json.arr ((data.hits.getD []).map mkHit), [req])

/-- The decorated tool get_top_stories: a verbatim copy of the undecorated
body in the source (only the docstring differs). -/
def get_top_stories (u : Upstream) (limit : Int) : Json × List Request :=
  let req := Request.listing "topstories" 10
  match u.listing "topstories" 10 with
  | Except.error e => (errJson e, [req])
  | Except.ok ids =>
    match fetchLoop u mkStoryTop (takeIds ids limit) with
    | (Except.ok stories, log) => (Json.arr stories, req :: log)
    | (Except.error e, log) => (errJson e, req :: log)

/-- The decorated tool get_new_stories: a verbatim copy of the undecorated
body in the source (only the docstring differs). -/
def get_new_stories (u : Upstream) (limit : Int) : Json × List Request :=
  let req := Request.listing "newstories" 10
  match u.listing "newstories" 10 with
  | Except.error e => (errJson e, [req])
  | Except.ok ids =>
    match fetchLoop u mkStoryNew (takeIds ids limit) with
    | (Except.ok stories, log) => (Json.arr stories, req :: log)
    | (Except.error e, log) => (errJson e, req :: log)

/-- The decorated tool get_story: a verbatim copy of the undecorated body in
the source (only the docstring differs); its single item fetch also passes
timeout 10. -/
def get_story (u : Upstream) (story_id : Int) : Json × List Request :=
  let req := Request.item story_id 10
  match u.item story_id 10 with
  | Except.error e => (errJson e, [req])
  | Except.ok none =>
    (Json.obj [("error", Json.str ("Story " ++ toString story_id ++ " not found"))], [req])
  | Except.ok (some story) =>
    if story.type = some "story" then (mkStorySingle story story_id, [req])
    else (Json.obj [("error", Json.str ("Item " ++ toString story_id ++ " is not a story"))], [req])

/-- The decorated tool search_stories: a verbatim copy of the undecorated
body in the source (only the docstring differs). -/
def search_stories (u : Upstream) (query : String) (limit : Int) : Json × List Request :=
  let lim := clampSearch limit
  let req := Request.search query "story" lim 10
  match u.search query "story" lim 10 with
  | Except.error e => (errJson e, [req])
  | Except.ok data => (Json.arr ((data.hits.getD []).map mkHit), [req])

/-- An upstream whose calls never raise: the listing endpoints answer with a
fixed id list, item lookups are given by a pure function, search answers with
no hits. Used to observe the pure data flow of the operations. -/
def pureUpstream (ids : List Int) (f : Int → Option RawItem) : Upstream where
  listing := fun _ _ => Except.ok ids
  item := fun i _ => Except.ok (f i)
  search := fun _ _ _ _ => Except.ok { hits := some [] }

/-- What one taken id contributes to a listing result: its shaped story when
the item exists and has type story, nothing otherwise. -/
def storyOf (f : Int → Option RawItem) (mk : RawItem → Int → Json) (i : Int) : Option Json :=
  match f i with
  | some s => if s.type = some "story" then some (mk s i) else none
  | none => none

/-- A result document that is either a stories array or the single-field
error object: the only two shapes a listing or search operation serializes. -/
def arrOrErr (j : Json) : Prop :=
  (∃ xs, j = Json.arr xs) ∨ (∃ m, j = Json.obj [("error", Json.str m)])

/-- A result document of get_story: a single story record or the
single-field error object. -/
def singleOrErr (story_id : Int) (j : Json) : Prop :=
  (∃ r, j = mkStorySingle r story_id) ∨ (∃ m, j = Json.obj [("error", Json.str m)])

/-- Every request issued by the server carries the timeout the source passes
to httpx.get: 10 for listing and search calls, 5 for fan-out item calls. -/
def goodTimeout : Request → Bool
  | .listing _ t => t == 10
  | .item _ t => t == 5
  | .search _ _ _ t => t == 10

/-- The predicate claimed by the spec sentence on per-item fetches: every
item request is issued with timeout 5. -/
def itemTimeout5 : Request → Bool
  | .item _ t => t == 5
  | _ => true

theorem fetchLoop_pureUpstream (L : List Int) (f : Int → Option RawItem)
    (mk : RawItem → Int → Json) (ids : List Int) :
    fetchLoop (pureUpstream L f) mk ids =
      (Except.ok (ids.filterMap (storyOf f mk)), ids.map (fun i => Request.item i 5)) := by
  induction ids with
  | nil => rfl
  | cons i rest ih =>
    simp only [pureUpstream] at ih ⊢
    simp only [fetchLoop, ih, List.filterMap_cons, List.map_cons]
    cases hf : f i with
    | none => simp [storyOf, hf, Except.map]
    | some s =>
      by_cases ht : s.type = some "story"
      · simp [storyOf, hf, ht, Except.map]
      · simp [storyOf, hf, ht, Except.map]

theorem fetchLoop_error_of_mem (u : Upstream) (mk : RawItem → Int → Json)
    (i : Int) (e : UpstreamErr) (ids : List Int) (hmem : i ∈ ids)
    (hfail : u.item i 5 = Except.error e) :
    ∃ e2, (fetchLoop u mk ids).1 = Except.error e2 := by
  induction ids with
  | nil => cases hmem
  | cons j rest ih =>
    simp only [fetchLoop]
    cases hj : u.item j 5 with
    | error e3 => exact ⟨e3, rfl⟩
    | ok story =>
      rcases List.mem_cons.mp hmem with hij | hir
      · subst hij; rw [hj] at hfail; cases hfail
      · rcases ih hir with ⟨e2, he2⟩
        cases hfl : (fetchLoop u mk rest).1 with
        | error e4 => exact ⟨e4, by simp [hfl, Except.map]⟩
        | ok ys => rw [hfl] at he2; cases he2

theorem fetchLoop_log_timeouts (u : Upstream) (mk : RawItem → Int → Json)
    (ids : List Int) : ((fetchLoop u mk ids).2).all goodTimeout = true := by
  induction ids with
  | nil => rfl
  | cons i rest ih =>
    simp only [fetchLoop]
    cases hi : u.item i 5 with
    | error e => rfl
    | ok story => simp [goodTimeout, ih]

theorem top_http_arrOrErr (u : Upstream) (limit : Int) :
    arrOrErr (get_top_stories_http u limit).1 := by
  simp only [get_top_stories_http]
  split
  · exact Or.inr ⟨_, rfl⟩
  · split
    · exact Or.inl ⟨_, rfl⟩
    · exact Or.inr ⟨_, rfl⟩

theorem new_http_arrOrErr (u : Upstream) (limit : Int) :
    arrOrErr (get_new_stories_http u limit).1 := by
  simp only [get_new_stories_http]
  split
  · exact Or.inr ⟨_, rfl⟩
  · split
    · exact Or.inl ⟨_, rfl⟩
    · exact Or.inr ⟨_, rfl⟩

theorem search_http_arrOrErr (u : Upstream) (q : String) (limit : Int) :
    arrOrErr (search_stories_http u q limit).1 := by
  simp only [search_stories_http]
  split
  · exact Or.inr ⟨_, rfl⟩
  · exact Or.inl ⟨_, rfl⟩

theorem story_http_singleOrErr (u : Upstream) (story_id : Int) :
    singleOrErr story_id (get_story_http u story_id).1 := by
  simp only [get_story_http]
  split
  · exact Or.inr ⟨_, rfl⟩
  · exact Or.inr ⟨_, rfl⟩
  · split
    · exact Or.inl ⟨_, rfl⟩
    · exact Or.inr ⟨_, rfl⟩

/-- Claim C9: each undecorated HTTP-endpoint function is extensionally equal
to its decorated tool counterpart; the two copies of each operation produce
identical results (and issue identical requests) for every upstream behaviour
and every input. -/
theorem claim_C9 (u : Upstream) (l1 l2 l3 story_id : Int) (q : String) :
    get_top_stories_http u l1 = get_top_stories u l1 ∧
    get_new_stories_http u l2 = get_new_stories u l2 ∧
    get_story_http u story_id = get_story u story_id ∧
    search_stories_http u q l3 = search_stories u q l3 :=
  ⟨rfl, rfl, rfl, rfl⟩

/-- A trivial upstream used to exhibit the request issued by get_story. -/
def uC8 : Upstream where
  listing := fun _ _ => Except.ok []
  item := fun _ _ => Except.ok none
  search := fun _ _ _ _ => Except.ok {}

/-- Claim C8 is false as stated: get_story fetches its single item with
timeout 10, not with the shorter per-item timeout 5. On the concrete input
story_id 7 the request log of get_story_http is exactly one item request
carrying timeout 10, so the claimed predicate (every item fetch is issued
with timeout 5) evaluates to false on it. -/
theorem claim_C8_counterexample :
    (get_story_http uC8 7).2 = [Request.item 7 10] ∧
    ((get_story_http uC8 7).2.all itemTimeout5) = false :=
  ⟨rfl, rfl⟩

/-- Claim C8 amended: every listing fetch and the search fetch are issued
with timeout 10 and every fan-out per-item fetch with timeout 5, but the
single-item fetch performed by get_story is issued with timeout 10. -/
theorem claim_C8 (u : Upstream) (limit story_id : Int) (q : String) :
    ((get_top_stories_http u limit).2.all goodTimeout) = true ∧
    ((get_new_stories_http u limit).2.all goodTimeout) = true ∧
    (get_story_http u story_id).2 = [Request.item story_id 10] ∧
    (search_stories_http u q limit).2 =
      [Request.search q "story" (clampSearch limit) 10] := by
  refine ⟨?_, ?_, ?_, ?_⟩
  · simp only [get_top_stories_http]
    split
    · rfl
    next ids _ =>
      split
      next stories log heq =>
        have hlog := fetchLoop_log_timeouts u mkStoryTop (takeIds ids limit)
        rw [heq] at hlog
        simpa [goodTimeout] using hlog
      next e log heq =>
        have hlog := fetchLoop_log_timeouts u mkStoryTop (takeIds ids limit)
        rw [heq] at hlog
        simpa [goodTimeout] using hlog
  · simp only [get_new_stories_http]
    split
    · rfl
    next ids _ =>
      split
      next stories log heq =>
        have hlog := fetchLoop_log_timeouts u mkStoryNew (takeIds ids limit)
        rw [heq] at hlog
        simpa [goodTimeout] using hlog
      next e log heq =>
        have hlog := fetchLoop_log_timeouts u mkStoryNew (takeIds ids limit)
        rw [heq] at hlog
        simpa [goodTimeout] using hlog
  · simp only [get_story_http]
    split
    · rfl
    · rfl
    · split
      · rfl
      · rfl
  · simp only [search_stories_http]
    split
    · rfl
    · rfl

theorem top_pureUpstream (ids : List Int) (f : Int → Option RawItem) (limit : Int) :
    get_top_stories_http (pureUpstream ids f) limit =
      (Json.arr ((takeIds ids limit).filterMap (storyOf f mkStoryTop)),
        Request.listing "topstories" 10 ::
          (takeIds ids limit).map (fun i => Request.item i 5)) := by
  have h := fetchLoop_pureUpstream ids f mkStoryTop (takeIds ids limit)
  simp only [pureUpstream] at h
  simp [get_top_stories_http, pureUpstream, h]

theorem new_pureUpstream (ids : List Int) (f : Int → Option RawItem) (limit : Int) :
    get_new_stories_http (pureUpstream ids f) limit =
      (Json.arr ((takeIds ids limit).filterMap (storyOf f mkStoryNew)),
        Request.listing "newstories" 10 ::
          (takeIds ids limit).map (fun i => Request.item i 5)) := by
  have h := fetchLoop_pureUpstream ids f mkStoryNew (takeIds ids limit)
  simp only [pureUpstream] at h
  simp [get_new_stories_http, pureUpstream, h]

theorem search_pureUpstream (ids : List Int) (f : Int → Option RawItem)
    (q : String) (limit : Int) :
    search_stories_http (pureUpstream ids f) q limit =
      (Json.arr [], [Request.search q "story" (clampSearch limit) 10]) := by
  simp [search_stories_http, pureUpstream]

theorem search_ok (uS : Upstream) (q : String) (limit : Int) (hitsL : List RawHit)
    (hsearch : uS.search q "story" (clampSearch limit) 10 =
      Except.ok { hits := some hitsL }) :
    search_stories_http uS q limit =
      (Json.arr (hitsL.map mkHit), [Request.search q "story" (clampSearch limit) 10]) := by
  simp [search_stories_http, hsearch]

/-- Claim C1: the effective count used by the listing operations is the
clamped limit, always within the inclusive range [1,30] (limit 0 gives 1,
limit 100 gives 30, limit -5 gives 1), so at most 30 ids are taken from the
listing before fetching; the count search_stories passes to the search
client as hitsPerPage is the clamped limit within [1,20]; out-of-range
limits are never rejected: with a benign upstream every operation still
answers with an array. -/
theorem claim_C1 (limit : Int) (ids : List Int) (f : Int → Option RawItem) (q : String) :
    1 ≤ clampListing limit ∧ clampListing limit ≤ 30 ∧
    1 ≤ clampSearch limit ∧ clampSearch limit ≤ 20 ∧
    clampListing 0 = 1 ∧ clampListing 100 = 30 ∧ clampListing (-5) = 1 ∧
    clampSearch 0 = 1 ∧ clampSearch 100 = 20 ∧ clampSearch (-5) = 1 ∧
    (takeIds ids limit).length ≤ 30 ∧
    (get_top_stories_http (pureUpstream ids f) limit).2 =
      Request.listing "topstories" 10 ::
        (takeIds ids limit).map (fun i => Request.item i 5) ∧
    (∃ xs, (get_top_stories_http (pureUpstream ids f) limit).1 = Json.arr xs) ∧
    (∃ xs, (get_new_stories_http (pureUpstream ids f) limit).1 = Json.arr xs) ∧
    (search_stories_http (pureUpstream ids f) q limit).2 =
      [Request.search q "story" (clampSearch limit) 10] ∧
    (∃ xs, (search_stories_http (pureUpstream ids f) q limit).1 = Json.arr xs) := by
  have h1 : 1 ≤ clampListing limit ∧ clampListing limit ≤ 30 := by
    unfold clampListing; omega
  have h2 : 1 ≤ clampSearch limit ∧ clampSearch limit ≤ 20 := by
    unfold clampSearch; omega
  have hlen : (takeIds ids limit).length ≤ 30 := by
    have h30 := h1.2
    simp only [takeIds, List.length_take]
    omega
  refine ⟨h1.1, h1.2, h2.1, h2.2, by decide, by decide, by decide, by decide,
    by decide, by decide, hlen, ?_, ?_, ?_, ?_, ?_⟩
  · rw [top_pureUpstream]
  · exact ⟨_, by rw [top_pureUpstream]⟩
  · exact ⟨_, by rw [new_pureUpstream]⟩
  · rw [search_pureUpstream]
  · exact ⟨[], by rw [search_pureUpstream]⟩

/-- Claim C2: every operation always answers with a well-formed document,
either the success shape (array, or single-story record) or exactly the
one-field object with key error; and whenever any upstream call fails, the
whole operation returns exactly that error object and no partial array: a
failing listing fetch, a failing item fetch anywhere in a listing fan-out,
a failing get_story item fetch, and a failing search call each degrade
their operation to the structured error payload. -/
theorem claim_C2 :
    (∀ (u : Upstream) (limit story_id : Int) (q : String),
      arrOrErr (get_top_stories_http u limit).1 ∧
      arrOrErr (get_new_stories_http u limit).1 ∧
      arrOrErr (search_stories_http u q limit).1 ∧
      singleOrErr story_id (get_story_http u story_id).1) ∧
    (∀ (u : Upstream) (limit : Int) (e : UpstreamErr),
      u.listing "topstories" 10 = Except.error e →
      (get_top_stories_http u limit).1 = Json.obj [("error", Json.str e.message)]) ∧
    (∀ (u : Upstream) (limit : Int) (e : UpstreamErr),
      u.listing "newstories" 10 = Except.error e →
      (get_new_stories_http u limit).1 = Json.obj [("error", Json.str e.message)]) ∧
    (∀ (u : Upstream) (limit : Int) (ids : List Int) (i : Int) (e : UpstreamErr),
      u.listing "topstories" 10 = Except.ok ids → i ∈ takeIds ids limit →
      u.item i 5 = Except.error e →
      ∃ m, (get_top_stories_http u limit).1 = Json.obj [("error", Json.str m)]) ∧
    (∀ (u : Upstream) (limit : Int) (ids : List Int) (i : Int) (e : UpstreamErr),
      u.listing "newstories" 10 = Except.ok ids → i ∈ takeIds ids limit →
      u.item i 5 = Except.error e →
      ∃ m, (get_new_stories_http u limit).1 = Json.obj [("error", Json.str m)]) ∧
    (∀ (u : Upstream) (story_id : Int) (e : UpstreamErr),
      u.item story_id 10 = Except.error e →
      (get_story_http u story_id).1 = Json.obj [("error", Json.str e.message)]) ∧
    (∀ (u : Upstream) (q : String) (limit : Int) (e : UpstreamErr),
      u.search q "story" (clampSearch limit) 10 = Except.error e →
      (search_stories_http u q limit).1 = Json.obj [("error", Json.str e.message)]) := by
  refine ⟨fun u limit story_id q =>
      ⟨top_http_arrOrErr u limit, new_http_arrOrErr u limit,
        search_http_arrOrErr u q limit, story_http_singleOrErr u story_id⟩,
    ?_, ?_, ?_, ?_, ?_, ?_⟩
  · intro u limit e hfail
    simp [get_top_stories_http, hfail, errJson]
  · intro u limit e hfail
    simp [get_new_stories_http, hfail, errJson]
  · intro u limit ids i e hlist hmem hfail
    rcases fetchLoop_error_of_mem u mkStoryTop i e (takeIds ids limit) hmem hfail with ⟨e2, he2⟩
    refine ⟨e2.message, ?_⟩
    simp only [get_top_stories_http, hlist]
    rcases hfl : fetchLoop u mkStoryTop (takeIds ids limit) with ⟨res, log⟩
    rw [hfl] at he2
    have hres : res = Except.error e2 := he2
    rw [hres]
    rfl
  · intro u limit ids i e hlist hmem hfail
    rcases fetchLoop_error_of_mem u mkStoryNew i e (takeIds ids limit) hmem hfail with ⟨e2, he2⟩
    refine ⟨e2.message, ?_⟩
    simp only [get_new_stories_http, hlist]
    rcases hfl : fetchLoop u mkStoryNew (takeIds ids limit) with ⟨res, log⟩
    rw [hfl] at he2
    have hres : res = Except.error e2 := he2
    rw [hres]
    rfl
  · intro u story_id e hfail
    simp [get_story_http, hfail, errJson]
  · intro u q limit e hfail
    simp [search_stories_http, hfail, errJson]

/-- An upstream whose item fetch for id 2 raises a transport error while the
listing succeeds: witness data for the fail-fast fan-out part of claim C2. -/
def uC2 : Upstream where
  listing := fun _ _ => Except.ok [1, 2, 3]
  item := fun i _ =>
    if i = 2 then Except.error (UpstreamErr.requestError "boom") else Except.ok none
  search := fun _ _ _ _ => Except.ok {}

/-- An upstream on which every call raises: witness data for the
listing-failure, get_story-failure and search-failure parts of claim C2. -/
def uC2fail : Upstream where
  listing := fun _ _ => Except.error (UpstreamErr.otherError "http 500")
  item := fun _ _ => Except.error (UpstreamErr.requestError "timeout")
  search := fun _ _ _ _ => Except.error (UpstreamErr.requestError "timeout")

theorem claim_C2_witness :
    uC2.listing "topstories" 10 = Except.ok [1, 2, 3] ∧
    (2 : Int) ∈ takeIds [1, 2, 3] 10 ∧
    uC2.item 2 5 = Except.error (UpstreamErr.requestError "boom") ∧
    (∃ m, (get_top_stories_http uC2 10).1 = Json.obj [("error", Json.str m)]) ∧
    (∃ m, (get_new_stories_http uC2 10).1 = Json.obj [("error", Json.str m)]) ∧
    (get_top_stories_http uC2fail 10).1 =
      Json.obj [("error", Json.str (UpstreamErr.otherError "http 500").message)] ∧
    (get_new_stories_http uC2fail 10).1 =
      Json.obj [("error", Json.str (UpstreamErr.otherError "http 500").message)] ∧
    (get_story_http uC2fail 7).1 =
      Json.obj [("error", Json.str (UpstreamErr.requestError "timeout").message)] ∧
    (search_stories_http uC2fail "x" 4).1 =
      Json.obj [("error", Json.str (UpstreamErr.requestError "timeout").message)] :=
  ⟨rfl, by decide, rfl,
    claim_C2.2.2.2.1 uC2 10 [1, 2, 3] 2 (UpstreamErr.requestError "boom")
      rfl (by decide) rfl,
    claim_C2.2.2.2.2.1 uC2 10 [1, 2, 3] 2 (UpstreamErr.requestError "boom")
      rfl (by decide) rfl,
    claim_C2.2.1 uC2fail 10 (UpstreamErr.otherError "http 500") rfl,
    claim_C2.2.2.1 uC2fail 10 (UpstreamErr.otherError "http 500") rfl,
    claim_C2.2.2.2.2.2.1 uC2fail 7 (UpstreamErr.requestError "timeout") rfl,
    claim_C2.2.2.2.2.2.2 uC2fail "x" 4 (UpstreamErr.requestError "timeout") rfl⟩

theorem mem_listing_filterMap (f : Int → Option RawItem) (mk : RawItem → Int → Json)
    (L : List Int) (s : Json) (hs : s ∈ L.filterMap (storyOf f mk)) :
    ∃ i r, i ∈ L ∧ f i = some r ∧ r.type = some "story" ∧ s = mk r i := by
  rcases List.mem_filterMap.mp hs with ⟨i, hiL, hsi⟩
  unfold storyOf at hsi
  cases hf : f i with
  | none => rw [hf] at hsi; cases hsi
  | some r =>
    rw [hf] at hsi
    have hsi2 : (if r.type = some "story" then some (mk r i) else none) = some s := hsi
    by_cases ht : r.type = some "story"
    · rw [if_pos ht] at hsi2
      exact ⟨i, r, hiL, hf, ht, (Option.some_inj.mp hsi2).symm⟩
    · rw [if_neg ht] at hsi2; cases hsi2

/-- Claim C3: every entry of a listing result array comes from a taken id
whose item exists and has upstream type story (so null items and non-story
items never contribute an entry), for both the top and the new listing;
while get_story on an existing non-story item answers with the explicit
type-mismatch error instead of silently excluding it. -/
theorem claim_C3 (ids : List Int) (f : Int → Option RawItem) (limit : Int)
    (s : Json) (xs : List Json)
    (htop : (get_top_stories_http (pureUpstream ids f) limit).1 = Json.arr xs)
    (hs : s ∈ xs) :
    (∃ i r, i ∈ takeIds ids limit ∧ f i = some r ∧ r.type = some "story" ∧
      s = mkStoryTop r i) ∧
    (∀ (xs2 : List Json) (s2 : Json),
      (get_new_stories_http (pureUpstream ids f) limit).1 = Json.arr xs2 → s2 ∈ xs2 →
      ∃ i r, i ∈ takeIds ids limit ∧ f i = some r ∧ r.type = some "story" ∧
        s2 = mkStoryNew r i) ∧
    (∀ (u : Upstream) (story_id : Int) (r : RawItem),
      u.item story_id 10 = Except.ok (some r) → r.type ≠ some "story" →
      (get_story_http u story_id).1 =
        Json.obj [("error", Json.str ("Item " ++ toString story_id ++ " is not a story"))]) := by
  refine ⟨?_, ?_, ?_⟩
  · rw [top_pureUpstream] at htop
    injection htop with hxs
    subst hxs
    exact mem_listing_filterMap f mkStoryTop (takeIds ids limit) s hs
  · intro xs2 s2 hnew hs2
    rw [new_pureUpstream] at hnew
    injection hnew with hxs2
    subst hxs2
    exact mem_listing_filterMap f mkStoryNew (takeIds ids limit) s2 hs2
  · intro u story_id r hitem ht
    simp only [get_story_http, hitem]
    rw [if_neg ht]

/-- A one-story upstream item table used to instantiate claim C3. -/
def rC3 : RawItem := { id := some 1, type := some "story" }

/-- The item function serving rC3 at id 1 and nothing elsewhere. -/
def fC3 : Int → Option RawItem := fun i => if i = 1 then some rC3 else none

theorem claim_C3_witness :
    (get_top_stories_http (pureUpstream [1] fC3) 5).1 = Json.arr [mkStoryTop rC3 1] ∧
    (∃ i r, i ∈ takeIds [1] 5 ∧ fC3 i = some r ∧ r.type = some "story" ∧
      mkStoryTop rC3 1 = mkStoryTop r i) :=
  ⟨rfl,
    (claim_C3 [1] fC3 5 (mkStoryTop rC3 1) [mkStoryTop rC3 1] rfl
      (List.mem_singleton.mpr rfl)).1⟩

/-- Claim C4: a falsy item body makes get_story answer exactly the not-found
error (regardless of any type, so the not-found check dominates the type
check), an existing non-story item makes it answer exactly the
type-mismatch error, and an existing story is answered as the single-story
record, whose fields are exactly id, title, url, score, author, comments,
time, text and kids: text and kids are present, time_iso is not. -/
theorem claim_C4 (story_id : Int) (uA uB uC : Upstream) (r rS : RawItem)
    (hA : uA.item story_id 10 = Except.ok none)
    (hB : uB.item story_id 10 = Except.ok (some r))
    (hBt : r.type ≠ some "story")
    (hC : uC.item story_id 10 = Except.ok (some rS))
    (hCt : rS.type = some "story") :
    (get_story_http uA story_id).1 =
      Json.obj [("error", Json.str ("Story " ++ toString story_id ++ " not found"))] ∧
    (get_story_http uB story_id).1 =
      Json.obj [("error", Json.str ("Item " ++ toString story_id ++ " is not a story"))] ∧
    (get_story_http uC story_id).1 = mkStorySingle rS story_id ∧
    Json.keys (mkStorySingle rS story_id) =
      ["id", "title", "url", "score", "author", "comments", "time", "text", "kids"] := by
  refine ⟨?_, ?_, ?_, rfl⟩
  · simp only [get_story_http, hA]
  · simp only [get_story_http, hB]
    rw [if_neg hBt]
  · simp only [get_story_http, hC]
    rw [if_pos hCt]

/-- A non-story item record used to instantiate claim C4. -/
def rC4job : RawItem := { id := some 9, type := some "job" }

/-- A story item record used to instantiate claim C4. -/
def rC4story : RawItem := { id := some 9, type := some "story" }

/-- An upstream answering every item fetch with a falsy body. -/
def uC4none : Upstream where
  listing := fun _ _ => Except.ok []
  item := fun _ _ => Except.ok none
  search := fun _ _ _ _ => Except.ok {}

/-- An upstream answering every item fetch with the job item. -/
def uC4job : Upstream where
  listing := fun _ _ => Except.ok []
  item := fun _ _ => Except.ok (some rC4job)
  search := fun _ _ _ _ => Except.ok {}

/-- An upstream answering every item fetch with the story item. -/
def uC4story : Upstream where
  listing := fun _ _ => Except.ok []
  item := fun _ _ => Except.ok (some rC4story)
  search := fun _ _ _ _ => Except.ok {}

theorem claim_C4_witness :
    (get_story_http uC4none 9).1 =
      Json.obj [("error", Json.str ("Story " ++ toString (9 : Int) ++ " not found"))] ∧
    (get_story_http uC4job 9).1 =
      Json.obj [("error", Json.str ("Item " ++ toString (9 : Int) ++ " is not a story"))] ∧
    (get_story_http uC4story 9).1 = mkStorySingle rC4story 9 ∧
    Json.keys (mkStorySingle rC4story 9) =
      ["id", "title", "url", "score", "author", "comments", "time", "text", "kids"] :=
  claim_C4 9 uC4none uC4job uC4story rC4job rC4story rfl rfl (by decide) rfl rfl

/-- The item table of the worked example: ids 1 to 6 exist, id 3 is a job,
every other id is a story carrying its own id. -/
def fC5 : Int → Option RawItem := fun i =>
  if i = 3 then some { id := some 3, type := some "job" }
  else some { id := some i, type := some "story" }

/-- The mock upstream of the worked example: top listing [1,2,3,4,5,6]. -/
def uC5 : Upstream := pureUpstream [1, 2, 3, 4, 5, 6] fC5

/-- Claim C5: the listing operations truncate the id list to the clamped
limit before fetching and filtering, so the result computed from the full
listing equals the one computed from the already-truncated listing (no
backfill from later ids); on the worked example with ids 1..6 where id 3 is
a job, get_top_stories with limit 5 returns exactly the four stories with
ids 1, 2, 4, 5 in that order. -/
theorem claim_C5 (ids : List Int) (f : Int → Option RawItem) (limit : Int) :
    get_top_stories_http (pureUpstream ids f) limit =
      get_top_stories_http (pureUpstream (takeIds ids limit) f) limit ∧
    get_new_stories_http (pureUpstream ids f) limit =
      get_new_stories_http (pureUpstream (takeIds ids limit) f) limit ∧
    (∃ xs, (get_top_stories_http uC5 5).1 = Json.arr xs ∧ xs.length = 4 ∧
      xs.map (Json.lookup "id") =
        [some (Json.int 1), some (Json.int 2), some (Json.int 4), some (Json.int 5)]) := by
  have htake : takeIds (takeIds ids limit) limit = takeIds ids limit := by
    simp [takeIds, List.take_take]
  refine ⟨?_, ?_, ?_⟩
  · rw [top_pureUpstream, top_pureUpstream, htake]
  · rw [new_pureUpstream, new_pureUpstream, htake]
  · exact ⟨_, rfl, rfl, rfl⟩

/-- Claim C6: the output order of the listing operations is exactly the
order of the truncated, filtered upstream id list (filterMap preserves list
order), and the output order of search_stories is exactly the order of the
upstream hits array (map preserves list order); no re-sorting happens. -/
theorem claim_C6 (ids : List Int) (f : Int → Option RawItem) (limit : Int)
    (q : String) (hitsL : List RawHit) (uS : Upstream)
    (hsearch : uS.search q "story" (clampSearch limit) 10 =
      Except.ok { hits := some hitsL }) :
    (get_top_stories_http (pureUpstream ids f) limit).1 =
      Json.arr ((takeIds ids limit).filterMap (storyOf f mkStoryTop)) ∧
    (get_new_stories_http (pureUpstream ids f) limit).1 =
      Json.arr ((takeIds ids limit).filterMap (storyOf f mkStoryNew)) ∧
    (search_stories_http uS q limit).1 = Json.arr (hitsL.map mkHit) := by
  refine ⟨?_, ?_, ?_⟩
  · rw [top_pureUpstream]
  · rw [new_pureUpstream]
  · rw [search_ok uS q limit hitsL hsearch]

/-- A search hit used to instantiate claim C6. -/
def hC6 : RawHit := { objectID := some "42", title := some "hello" }

/-- An upstream whose search call answers with the single hit hC6. -/
def uC6 : Upstream where
  listing := fun _ _ => Except.ok []
  item := fun _ _ => Except.ok none
  search := fun _ _ _ _ => Except.ok { hits := some [hC6] }

theorem claim_C6_witness :
    uC6.search "rust" "story" (clampSearch 2) 10 = Except.ok { hits := some [hC6] } ∧
    (search_stories_http uC6 "rust" 2).1 = Json.arr ([hC6].map mkHit) :=
  ⟨rfl, (claim_C6 [] (fun _ => none) 2 "rust" [hC6] uC6 rfl).2.2⟩

/-- Claim C7: normalization replaces each absent optional field with its
documented default (title and author empty, score, comments and time zero),
and an absent url field is replaced by the canonical discussion link built
from the listing id, the story_id, or, for search hits, the objectID. -/
theorem claim_C7 (r : RawItem) (i : Int) (h : RawHit) (oid : String)
    (hrt : r.title = none) (hru : r.url = none) (hrs : r.score = none)
    (hrb : r.by_ = none) (hrd : r.descendants = none) (hrtime : r.time = none)
    (hht : h.title = none) (hhu : h.url = none) (hhp : h.points = none)
    (hha : h.author = none) (hhn : h.num_comments = none)
    (hhc : h.created_at_i = none) (hoid : h.objectID = some oid) :
    Json.lookup "title" (mkStoryTop r i) = some (Json.str "") ∧
    Json.lookup "score" (mkStoryTop r i) = some (Json.int 0) ∧
    Json.lookup "author" (mkStoryTop r i) = some (Json.str "") ∧
    Json.lookup "comments" (mkStoryTop r i) = some (Json.int 0) ∧
    Json.lookup "time" (mkStoryTop r i) = some (Json.int 0) ∧
    Json.lookup "url" (mkStoryTop r i) = some (Json.str (hnItemUrl i)) ∧
    Json.lookup "url" (mkStoryNew r i) = some (Json.str (hnItemUrl i)) ∧
    Json.lookup "url" (mkStorySingle r i) = some (Json.str (hnItemUrl i)) ∧
    Json.lookup "title" (mkHit h) = some (Json.str "") ∧
    Json.lookup "score" (mkHit h) = some (Json.int 0) ∧
    Json.lookup "author" (mkHit h) = some (Json.str "") ∧
    Json.lookup "comments" (mkHit h) = some (Json.int 0) ∧
    Json.lookup "time" (mkHit h) = some (Json.int 0) ∧
    Json.lookup "url" (mkHit h) = some (Json.str (hnItemUrlOfStr oid)) := by
  refine ⟨?_, ?_, ?_, ?_, ?_, ?_, ?_, ?_, ?_, ?_, ?_, ?_, ?_, ?_⟩
  · rw [show Json.lookup "title" (mkStoryTop r i) =
      some (Json.str (r.title.getD "")) from rfl, hrt]
    rfl
  · rw [show Json.lookup "score" (mkStoryTop r i) =
      some (Json.int (r.score.getD 0)) from rfl, hrs]
    rfl
  · rw [show Json.lookup "author" (mkStoryTop r i) =
      some (Json.str (r.by_.getD "")) from rfl, hrb]
    rfl
  · rw [show Json.lookup "comments" (mkStoryTop r i) =
      some (Json.int (r.descendants.getD 0)) from rfl, hrd]
    rfl
  · rw [show Json.lookup "time" (mkStoryTop r i) =
      some (Json.int (r.time.getD 0)) from rfl, hrtime]
    rfl
  · rw [show Json.lookup "url" (mkStoryTop r i) =
      some (Json.str (r.url.getD (hnItemUrl i))) from rfl, hru]
    rfl
  · rw [show Json.lookup "url" (mkStoryNew r i) =
      some (Json.str (r.url.getD (hnItemUrl i))) from rfl, hru]
    rfl
  · rw [show Json.lookup "url" (mkStorySingle r i) =
      some (Json.str (r.url.getD (hnItemUrl i))) from rfl, hru]
    rfl
  · rw [show Json.lookup "title" (mkHit h) =
      some (Json.str (h.title.getD "")) from rfl, hht]
    rfl
  · rw [show Json.lookup "score" (mkHit h) =
      some (Json.int (h.points.getD 0)) from rfl, hhp]
    rfl
  · rw [show Json.lookup "author" (mkHit h) =
      some (Json.str (h.author.getD "")) from rfl, hha]
    rfl
  · rw [show Json.lookup "comments" (mkHit h) =
      some (Json.int (h.num_comments.getD 0)) from rfl, hhn]
    rfl
  · rw [show Json.lookup "time" (mkHit h) =
      some (Json.int (h.created_at_i.getD 0)) from rfl, hhc]
    rfl
  · rw [show Json.lookup "url" (mkHit h) =
      some (Json.str (h.url.getD (hnItemUrlOfStr (pyOptStr h.objectID)))) from rfl,
      hhu, hoid]
    rfl

/-- A raw item with every optional field absent, used to instantiate C7. -/
def rC7 : RawItem := { id := some 5, type := some "story" }

/-- A raw hit with only an objectID, used to instantiate C7. -/
def hC7 : RawHit := { objectID := some "77" }

theorem claim_C7_witness :
    rC7.title = none ∧ rC7.url = none ∧ hC7.objectID = some "77" ∧
    Json.lookup "title" (mkStoryTop rC7 5) = some (Json.str "") :=
  ⟨rfl, rfl, rfl,
    (claim_C7 rC7 5 hC7 "77" rfl rfl rfl rfl rfl rfl rfl rfl rfl rfl rfl rfl rfl).1⟩

theorem timeIso_null_iff (o : Option Int) :
    timeIso o = Json.null ↔ (o = none ∨ o = some 0) := by
  cases o with
  | none => simp [timeIso]
  | some t =>
    by_cases ht : t = 0
    · simp [timeIso, ht]
    · simp [timeIso, ht]

/-- Claim C10: in a listing record the time_iso field is null exactly when
the upstream time field is absent or zero (Python truthiness turns a zero
timestamp into None rather than the string 0), while a search hit record
always carries a string time_iso: an absent created_at defaults to the
empty string, and no member of a search result array ever has a null
time_iso. -/
theorem claim_C10 (r : RawItem) (i : Int) (h : RawHit) (u : Upstream) (q : String)
    (limit : Int) (s : Json) (xs : List Json)
    (hres : (search_stories_http u q limit).1 = Json.arr xs) (hs : s ∈ xs) :
    (Json.lookup "time_iso" (mkStoryTop r i) = some Json.null ↔
      (r.time = none ∨ r.time = some 0)) ∧
    (Json.lookup "time_iso" (mkStoryNew r i) = some Json.null ↔
      (r.time = none ∨ r.time = some 0)) ∧
    (h.created_at = none → Json.lookup "time_iso" (mkHit h) = some (Json.str "")) ∧
    Json.lookup "time_iso" s ≠ some Json.null := by
  refine ⟨?_, ?_, ?_, ?_⟩
  · rw [show Json.lookup "time_iso" (mkStoryTop r i) = some (timeIso r.time) from rfl]
    rw [Option.some_inj]
    exact timeIso_null_iff r.time
  · rw [show Json.lookup "time_iso" (mkStoryNew r i) = some (timeIso r.time) from rfl]
    rw [Option.some_inj]
    exact timeIso_null_iff r.time
  · intro hc
    rw [show Json.lookup "time_iso" (mkHit h) =
      some (Json.str (h.created_at.getD "")) from rfl, hc]
    rfl
  · cases hq : u.search q "story" (clampSearch limit) 10 with
    | error e =>
      simp only [search_stories_http, hq] at hres
      simp [errJson] at hres
    | ok data =>
      simp only [search_stories_http, hq] at hres
      injection hres with hxs
      subst hxs
      rcases List.mem_map.mp hs with ⟨h2, hh2, rfl⟩
      rw [show Json.lookup "time_iso" (mkHit h2) =
        some (Json.str (h2.created_at.getD "")) from rfl]
      simp

/-- A search hit without created_at used to instantiate claim C10. -/
def hC10 : RawHit := { objectID := some "9" }

/-- An upstream whose search call answers with the single hit hC10. -/
def uC10 : Upstream where
  listing := fun _ _ => Except.ok []
  item := fun _ _ => Except.ok none
  search := fun _ _ _ _ => Except.ok { hits := some [hC10] }

theorem claim_C10_witness :
    (search_stories_http uC10 "x" 3).1 = Json.arr [mkHit hC10] ∧
    Json.lookup "time_iso" (mkHit hC10) ≠ some Json.null :=
  ⟨rfl,
    (claim_C10 {} 0 hC10 uC10 "x" 3 (mkHit hC10) [mkHit hC10] rfl
      (List.mem_singleton.mpr rfl)).2.2.2⟩
